import Mathlib

/-!
Shallow embedding of `src/main.go` (talkit-backend-go): an HTTP facade over a
document store (Firestore) with two endpoints, `/users` and `/suscriptions`.

Modelling conventions:
* The document store is a list of documents (collection, id, data).  Its
  operation semantics follow the Firestore gateway contract the source relies
  on: `Create` fails when the document already exists, `Set` overwrites,
  `Delete` always succeeds, `Where("uid","==",v)` filters a collection by the
  `uid` field.  Infrastructure failures of the store or of client
  initialisation are out of scope for the store operations themselves
  (they are external collaborators); client acquisition is modelled by the
  request `clientOk` flag, since both `firebase.NewApp` and `app.Firestore`
  error paths respond 500 before any routing.
* `http.ResponseWriter` is modelled by `Response`: `WriteHeader` is
  first-write-wins (Go ignores superfluous calls), a body `Write` with no
  status yet implicitly sets 200, `Header().Set` replaces or appends.
* Request bodies: `ioutil.ReadAll` failure is one constructor; a body that is
  read is represented by the outcomes of `json.Unmarshal` into the two target
  structs (`UsersFieldsType` and `DeleteType`), `none` meaning the unmarshal
  errors for that struct.
* `float64` (`Price`) is only carried, never computed with, so it is `Int`.
* Timestamps are `Int` seconds.  `time.Now().In(location)` is a clock
  parameter `now : String → Int` applied to the location name the source
  loads.  `t.AddDate(0,0,n)` in the fixed-offset America/Buenos_Aires zone
  (no DST) adds `n * 86400` seconds; the serialisation through
  `Format(http.TimeFormat)` (second granularity) is abstracted to the instant.
* `json.NewEncoder(...).Encode` of a `map[string]interface{}` emits the keys
  in sorted order; JSON object bodies are lists of (key, value) pairs in that
  emission order.
-/

/-- Model of `UsersFieldsType` from `main.go`: the fields struct for a profile.  The
source field `Type` is `Type'` here because `Type` is reserved in Lean.
The struct carries only `firestore:` tags (no `json:` tags), so the stored
document uses the tag names (`uid`, `displayName`, ...) while JSON decoding
matches the Go field names. -/
structure UsersFieldsType where
  ID : String
  Name : String
  Price : Int
  Type' : String
  Year : String
  Image : String
  Description : String
  Slug : String
deriving DecidableEq

/-- Model of `DeleteType` from `main.go`: the expected body of a delete call. -/
structure DeleteType where
  ID : String
deriving DecidableEq

/-- The subscription record synthesized by `HandleUserCreate`; this is the
content of the `map[string]interface{}` the source builds and JSON-marshals
before handing it to the store `Create`. -/
structure Suscription where
  expired : Bool
  suscriptionType : String
  cost : Int
  expireAt : Int
  createdAt : Int
deriving DecidableEq

/-- The data stored in a document: either a decoded `UsersFieldsType` (the
create/update handlers pass `&newUsers` / `&Body`) or the JSON-marshalled
subscription map from `HandleUserCreate`, represented by its content. -/
inductive StoreValue
  | user (f : UsersFieldsType)
  | suscription (s : Suscription)
deriving DecidableEq

/-- A stored document: collection name, document id, data. -/
structure Doc where
  coll : String
  id : String
  data : StoreValue
deriving DecidableEq

/-- The document store: the two flat collections as one document list. -/
structure Store where
  docs : List Doc
deriving DecidableEq

/-- The value of the `uid` field of a stored document, used by the
`Where("uid", "==", uid)` query: a stored `UsersFieldsType` exposes `uid`
via its firestore tag; the marshalled subscription blob has no `uid` field. -/
def StoreValue.uidField : StoreValue → Option String
  | .user f => some f.ID
  | .suscription _ => none

/-- Whether a document with this collection and id exists. -/
def Store.existsDoc (s : Store) (coll id : String) : Bool :=
  s.docs.any fun d => d.coll == coll && d.id == id

/-- Model of `Create`: fails (AlreadyExists) when the document exists, otherwise adds. -/
def Store.create (s : Store) (coll id : String) (v : StoreValue) : Except Unit Store :=
  if s.existsDoc coll id then .error ()
  else .ok { docs := s.docs ++ [{ coll := coll, id := id, data := v }] }

/-- Model of `Set`: overwrite the document, creating it when absent. -/
def Store.set (s : Store) (coll id : String) (v : StoreValue) : Store :=
  if s.existsDoc coll id then
    { docs := s.docs.map fun d =>
        if d.coll == coll && d.id == id then { d with data := v } else d }
  else { docs := s.docs ++ [{ coll := coll, id := id, data := v }] }

/-- Model of `Delete`: remove the document; deleting an absent document succeeds. -/
def Store.delete (s : Store) (coll id : String) : Store :=
  { docs := s.docs.filter fun d => !(d.coll == coll && d.id == id) }

/-- Model of `Collection(coll).Where("uid","==",uid).Documents`: the data of the
matching documents, in store order. -/
def Store.query (s : Store) (coll uid : String) : List StoreValue :=
  (s.docs.filter fun d => d.coll == coll && d.data.uidField == some uid).map (·.data)

/-- One JSON value as produced by the encoder for the error bodies. -/
inductive Jval
  | str (v : String)
  | num (v : Int)
  | bool (v : Bool)
  | null
deriving DecidableEq

/-- A JSON object body, keys in the sorted emission order used by Go. -/
abbrev JsonObj := List (String × Jval)

/-- One body write on the response writer. -/
inductive BodyWrite
  | jsonObj (o : JsonObj)
  | record (v : StoreValue)
  | text (s : String)
deriving DecidableEq

/-- The `http.ResponseWriter` observable state. -/
structure Response where
  status : Option Nat
  headers : List (String × String)
  body : List BodyWrite
deriving DecidableEq

/-- The writer before the handler runs. -/
def Response.empty : Response := { status := none, headers := [], body := [] }

/-- Model of `Header().Set`: replace the value when the key exists, else append. -/
def Response.setHeader (r : Response) (k v : String) : Response :=
  if r.headers.any (fun p => p.1 == k) then
    { r with headers := r.headers.map fun p => if p.1 == k then (k, v) else p }
  else { r with headers := r.headers ++ [(k, v)] }

/-- Model of `WriteHeader`: only the first call takes effect. -/
def Response.writeHeader (r : Response) (c : Nat) : Response :=
  if r.status.isSome then r else { r with status := some c }

/-- A body `Write`: implicitly writes status 200 when none was written yet. -/
def Response.write (r : Response) (b : BodyWrite) : Response :=
  { r with status := some (r.status.getD 200), body := r.body ++ [b] }

/-- HTTP methods the dispatcher distinguishes. -/
inductive Method
  | GET | POST | PUT | DELETE | OPTIONS | other
deriving DecidableEq

/-- The request body as the handlers observe it: `readFailed` when
`ioutil.ReadAll` errors; otherwise the outcomes of `json.Unmarshal` into
`UsersFieldsType` (`u`) and into `DeleteType` (`d`), `none` = unmarshal
error for that struct. -/
inductive BodyRead
  | readFailed
  | content (u : Option UsersFieldsType) (d : Option DeleteType)
deriving DecidableEq

/-- An incoming request together with its environment outcomes:
`uid` is `r.URL.Query().Get("uid")` (empty when absent), `authValid` the
outcome of `auth.VerifyIDToken` on the `Authorization` header, `clientOk`
whether `firebase.NewApp` and `app.Firestore` both succeed. -/
structure Request where
  method : Method
  uid : String
  authValid : Bool
  clientOk : Bool
  body : BodyRead
deriving DecidableEq

/-- Handler state: the response writer and the store. -/
structure HState where
  resp : Response
  store : Store
deriving DecidableEq

/-- Handler outcome: normal return, or a Go `panic` with the state at the
panic (nothing further is written). -/
inductive HResult
  | done (st : HState)
  | panicked (st : HState)
deriving DecidableEq

/-- The state carried by either outcome. -/
def HResult.state : HResult → HState
  | .done st => st
  | .panicked st => st

/-- The body `authorizeRequest` encodes on verification failure, keys in the sorted map emission order used by Go. -/
def forbiddenBody : JsonObj :=
  [("data", .null), ("error", .str "FORBIDDEN"),
   ("message", .str "You are trying to access to this api with malformed or unhauthenticated user"),
   ("statusCode", .num 403)]

/-- The body the get handlers encode on zero matches, keys in the sorted map emission order used by Go. -/
def notFoundBody : JsonObj :=
  [("data", .null), ("error", .str "NOT_FOUND"),
   ("message", .str "User uid not found"),
   ("statusCode", .num 404)]

/-- Model of `authorizeRequest` from `main.go`: on `VerifyIDToken` failure set the
content type, write 403 and encode the forbidden body; on success only log.
It does not halt the caller either way. -/
def authorizeRequest (r : Request) (resp : Response) : Response :=
  if r.authValid then resp
  else
    ((resp.setHeader "content-type" "application/json").writeHeader 403).write (.jsonObj forbiddenBody)

/-- Model of `getUsers` from `main.go`: query collection `"user"` on field `uid`;
encode the first match (implicit 200) when any, else content type, 404 and
the not-found body. -/
def getUsers (r : Request) (st : HState) : HState :=
  match st.store.query "user" r.uid with
  | [] =>
    let resp := ((st.resp.setHeader "content-type" "application/json").writeHeader 404).write (.jsonObj notFoundBody)
    { st with resp := resp }
  | m :: _ => { st with resp := st.resp.write (.record m) }

/-- Model of `setUsers` from `main.go`: panic when the body read fails; 400 when the
unmarshal into `UsersFieldsType` fails; else `Create` into `"Users"` keyed
by `ID` — 500 on store error, 201 on success. -/
def setUsers (r : Request) (st : HState) : HResult :=
  match r.body with
  | .readFailed => .panicked st
  | .content u _ =>
    match u with
    | none => .done { st with resp := st.resp.writeHeader 400 }
    | some newUsers =>
      match st.store.create "Users" newUsers.ID (.user newUsers) with
      | .error _ => .done { st with resp := st.resp.writeHeader 500 }
      | .ok s => .done { resp := st.resp.writeHeader 201, store := s }

/-- Model of `deleteUsers` from `main.go`: 400 when the body read or the unmarshal
into `DeleteType` fails; else `Delete` from `"Users"` keyed by `ID`, 200. -/
def deleteUsers (r : Request) (st : HState) : HState :=
  match r.body with
  | .readFailed => { st with resp := st.resp.writeHeader 400 }
  | .content _ d =>
    match d with
    | none => { st with resp := st.resp.writeHeader 400 }
    | some b =>
      { resp := st.resp.writeHeader 200, store := st.store.delete "Users" b.ID }

/-- Model of `updateUsers` from `main.go`: 400 when the body read or the unmarshal
into `UsersFieldsType` fails; else `Set` into `"Users"` keyed by `ID`, 200. -/
def updateUsers (r : Request) (st : HState) : HState :=
  match r.body with
  | .readFailed => { st with resp := st.resp.writeHeader 400 }
  | .content u _ =>
    match u with
    | none => { st with resp := st.resp.writeHeader 400 }
    | some b =>
      { resp := st.resp.writeHeader 200, store := st.store.set "Users" b.ID (.user b) }

/-- Model of `getSuscriptions` from `main.go`: identical to `getUsers` — it also
queries collection `"user"` on field `uid`. -/
def getSuscriptions (r : Request) (st : HState) : HState :=
  match st.store.query "user" r.uid with
  | [] =>
    let resp := ((st.resp.setHeader "content-type" "application/json").writeHeader 404).write (.jsonObj notFoundBody)
    { st with resp := resp }
  | m :: _ => { st with resp := st.resp.write (.record m) }

/-- Model of `setSuscriptions` from `main.go`: like `setUsers` but `Create` into
`"Suscriptions"`. -/
def setSuscriptions (r : Request) (st : HState) : HResult :=
  match r.body with
  | .readFailed => .panicked st
  | .content u _ =>
    match u with
    | none => .done { st with resp := st.resp.writeHeader 400 }
    | some newUsers =>
      match st.store.create "Suscriptions" newUsers.ID (.user newUsers) with
      | .error _ => .done { st with resp := st.resp.writeHeader 500 }
      | .ok s => .done { resp := st.resp.writeHeader 201, store := s }

/-- Model of `deleteSuscriptions` from `main.go`: like `deleteUsers` but on
`"Suscriptions"`. -/
def deleteSuscriptions (r : Request) (st : HState) : HState :=
  match r.body with
  | .readFailed => { st with resp := st.resp.writeHeader 400 }
  | .content _ d =>
    match d with
    | none => { st with resp := st.resp.writeHeader 400 }
    | some b =>
      { resp := st.resp.writeHeader 200, store := st.store.delete "Suscriptions" b.ID }

/-- Model of `updateSuscriptions` from `main.go`: like `updateUsers` but on
`"Suscriptions"`. -/
def updateSuscriptions (r : Request) (st : HState) : HState :=
  match r.body with
  | .readFailed => { st with resp := st.resp.writeHeader 400 }
  | .content u _ =>
    match u with
    | none => { st with resp := st.resp.writeHeader 400 }
    | some b =>
      { resp := st.resp.writeHeader 200,
        store := st.store.set "Suscriptions" b.ID (.user b) }

/-- Model of `FirestoreValue` from `main.go`, restricted to the field the code reads
(`Fields`); `CreateTime`, `Name`, `UpdateTime` are never used. -/
structure FirestoreValue where
  Fields : UsersFieldsType
deriving DecidableEq

/-- Model of `FirestoreEvent` from `main.go`, restricted to the field the code reads
(`Value`); `OldValue` and `UpdateMask` are never used. -/
structure FirestoreEvent where
  Value : FirestoreValue
deriving DecidableEq

/-- Model of `HandleUserCreate` from `main.go`: take `now` in the
`"America/Buenos_Aires"` location, build the subscription map with
`expired=false`, `suscriptionType="free-trial"`, `cost=0`,
`createdAt = t`, `expireAt = t.AddDate(0,0,7*12)` (84 days, `86400`
seconds each in this fixed-offset zone), JSON-marshal it and `Create` it in
collection `"Suscriptions"` keyed by the profile `ID` of the event; 500 on store
error, 201 on success. -/
def HandleUserCreate (now : String → Int) (e : FirestoreEvent) (st : HState) : HState :=
  let newFields := e.Value.Fields
  let t := now "America/Buenos_Aires"
  let suscription : Suscription :=
    { expired := false, suscriptionType := "free-trial", cost := 0,
      expireAt := t + 7 * 12 * 86400, createdAt := t }
  match st.store.create "Suscriptions" newFields.ID (.suscription suscription) with
  | .error _ => { st with resp := st.resp.writeHeader 500 }
  | .ok s => { resp := st.resp.writeHeader 201, store := s }

/-- Model of `UsersAPI` from `main.go`: 500 when client acquisition fails; OPTIONS
preflight answered with the four CORS headers and 204; otherwise set
`Access-Control-Allow-Origin: *` and dispatch on the method, running
`authorizeRequest` before each mutating handler (its outcome does not gate
the handler call); unknown methods get `http.Error` 404 "UNSUPPORTED
METHOD" (with the two headers `http.Error` sets). -/
def UsersAPI (r : Request) (store : Store) : HResult :=
  if r.clientOk = false then
    .done { resp := Response.empty.writeHeader 500, store := store }
  else if r.method = .OPTIONS then
    let corsResp := ((((Response.empty.setHeader "Access-Control-Allow-Origin" "*").setHeader "Access-Control-Allow-Methods" "*").setHeader "Access-Control-Allow-Headers" "Content-Type").setHeader "Access-Control-Max-Age" "3600").writeHeader 204
    .done { resp := corsResp, store := store }
  else
    let resp := Response.empty.setHeader "Access-Control-Allow-Origin" "*"
    match r.method with
    | .GET => .done (getUsers r { resp := resp, store := store })
    | .POST => setUsers r { resp := authorizeRequest r resp, store := store }
    | .DELETE => .done (deleteUsers r { resp := authorizeRequest r resp, store := store })
    | .PUT => .done (updateUsers r { resp := authorizeRequest r resp, store := store })
    | _ =>
      let errResp := (((resp.setHeader "Content-Type" "text/plain; charset=utf-8").setHeader "X-Content-Type-Options" "nosniff").writeHeader 404).write (.text "UNSUPPORTED METHOD")
      .done { resp := errResp, store := store }

/-- Model of `SuscriptionsAPI` from `main.go`: same dispatch as `UsersAPI` with the
subscription handlers. -/
def SuscriptionsAPI (r : Request) (store : Store) : HResult :=
  if r.clientOk = false then
    .done { resp := Response.empty.writeHeader 500, store := store }
  else if r.method = .OPTIONS then
    let corsResp := ((((Response.empty.setHeader "Access-Control-Allow-Origin" "*").setHeader "Access-Control-Allow-Methods" "*").setHeader "Access-Control-Allow-Headers" "Content-Type").setHeader "Access-Control-Max-Age" "3600").writeHeader 204
    .done { resp := corsResp, store := store }
  else
    let resp := Response.empty.setHeader "Access-Control-Allow-Origin" "*"
    match r.method with
    | .GET => .done (getSuscriptions r { resp := resp, store := store })
    | .POST => setSuscriptions r { resp := authorizeRequest r resp, store := store }
    | .DELETE => .done (deleteSuscriptions r { resp := authorizeRequest r resp, store := store })
    | .PUT => .done (updateSuscriptions r { resp := authorizeRequest r resp, store := store })
    | _ =>
      let errResp := (((resp.setHeader "Content-Type" "text/plain; charset=utf-8").setHeader "X-Content-Type-Options" "nosniff").writeHeader 404).write (.text "UNSUPPORTED METHOD")
      .done { resp := errResp, store := store }

/-- The router from `main`: `"/users"` is served by `UsersAPI`,
`"/suscriptions"` by `SuscriptionsAPI`. -/
def route (path : String) : Option (Request → Store → HResult) :=
  if path = "/users" then some UsersAPI
  else if path = "/suscriptions" then some SuscriptionsAPI
  else none

/-- Modelled from the spec: the Firestore-trigger deployment wiring that
invokes the Provisioning Handler when a profile document is created is not
part of the source tree — `HandleUserCreate` is defined but has no caller in
`main.go`.  Per the spec ("a profile is created by an explicit client
request; its linked subscription is created automatically as a side effect
of profile creation"; "when a profile is created, synthesize a companion
subscription record"), the trigger invokes `HandleUserCreate` with the
fields of the created profile on its own event writer.  Only the store effect is
observable here. -/
def userCreateTrigger (now : String → Int) (f : UsersFieldsType) (store : Store) : Store :=
  (HandleUserCreate now { Value := { Fields := f } }
    { resp := Response.empty, store := store }).store

/-! ## Projection lemmas for the response writer -/

@[simp] theorem Response.setHeader_status (r : Response) (k v : String) :
    (r.setHeader k v).status = r.status := by
  unfold Response.setHeader; split <;> rfl

@[simp] theorem Response.setHeader_body (r : Response) (k v : String) :
    (r.setHeader k v).body = r.body := by
  unfold Response.setHeader; split <;> rfl

@[simp] theorem Response.writeHeader_status (r : Response) (c : Nat) :
    (r.writeHeader c).status = some (r.status.getD c) := by
  unfold Response.writeHeader
  cases h : r.status <;> simp [h]

@[simp] theorem Response.writeHeader_body (r : Response) (c : Nat) :
    (r.writeHeader c).body = r.body := by
  unfold Response.writeHeader; split <;> rfl

@[simp] theorem Response.writeHeader_headers (r : Response) (c : Nat) :
    (r.writeHeader c).headers = r.headers := by
  unfold Response.writeHeader; split <;> rfl

@[simp] theorem Response.write_status (r : Response) (b : BodyWrite) :
    (r.write b).status = some (r.status.getD 200) := rfl

@[simp] theorem Response.write_body (r : Response) (b : BodyWrite) :
    (r.write b).body = r.body ++ [b] := rfl

@[simp] theorem Response.empty_status : Response.empty.status = none := rfl

@[simp] theorem Response.empty_body : Response.empty.body = [] := rfl

/-- The router serves exactly the two API functions. -/
theorem route_handlers {path : String} {h : Request → Store → HResult}
    (hp : route path = some h) : h = UsersAPI ∨ h = SuscriptionsAPI := by
  unfold route at hp
  split at hp
  · exact Or.inl (Option.some.inj hp).symm
  · split at hp
    · exact Or.inr (Option.some.inj hp).symm
    · exact absurd hp (by simp)

/-! ## Concrete inputs for witnesses and counterexamples -/

/-- A well-formed profile body, as decoded by the handlers. -/
def f1 : UsersFieldsType :=
  { ID := "u1", Name := "Ana", Price := 0, Type' := "t", Year := "2024",
    Image := "", Description := "", Slug := "ana" }

/-- POST with an invalid bearer token and a well-formed body. -/
def reqPostBadToken : Request :=
  { method := .POST, uid := "", authValid := false, clientOk := true,
    body := .content (some f1) (some { ID := "u1" }) }

/-- POST with a valid token and a well-formed body. -/
def reqPostValid : Request :=
  { method := .POST, uid := "", authValid := true, clientOk := true,
    body := .content (some f1) none }

/-- GET for `uid=u1`. -/
def reqGetU1 : Request :=
  { method := .GET, uid := "u1", authValid := true, clientOk := true,
    body := .content none none }

/-- A fixed clock and event for concrete provisioning runs. -/
def now1 : String → Int := fun _ => 1000

/-- A profile-created event carrying `f1`. -/
def e1 : FirestoreEvent := { Value := { Fields := f1 } }

/-- Fresh handler state over the empty store. -/
def stEmpty : HState := { resp := Response.empty, store := { docs := [] } }

/-! ## Claims -/

/-- C1: the claim asserts that a mutating request with an invalid bearer
token gets a 403 response and causes no store mutation.  The 403 part holds,
but the dispatcher calls the mutation handler unconditionally after
`authorizeRequest`, so the mutation still happens: a POST to `/users` with
an invalid token and a well-formed body answers 403 yet creates the
document `Users/u1`. -/
theorem C1_failed_auth_still_mutates :
    (UsersAPI reqPostBadToken { docs := [] }).state.resp.status = some 403 ∧
    (UsersAPI reqPostBadToken { docs := [] }).state.store.docs =
      [{ coll := "Users", id := "u1", data := .user f1 }] :=
  ⟨rfl, rfl⟩

/-- C3: the claim asserts that a successful profile creation followed by a
GET with the same uid returns 200 with the submitted fields.  It fails on the
code: the create writes collection `"Users"` while the read queries
collection `"user"`, so against a store holding only what the creation wrote
the read finds zero matches and answers 404 with the not-found body. -/
theorem C3_create_then_read_is_404 :
    ∃ st1, UsersAPI reqPostValid { docs := [] } = .done st1 ∧
      st1.resp.status = some 201 ∧
      st1.store.docs = [{ coll := "Users", id := "u1", data := .user f1 }] ∧
      (UsersAPI reqGetU1 st1.store).state.resp.status = some 404 ∧
      (UsersAPI reqGetU1 st1.store).state.resp.body = [.jsonObj notFoundBody] :=
  ⟨_, rfl, rfl, rfl, rfl, rfl⟩

/-- C4: `HandleUserCreate` takes one instant from the clock at location
`"America/Buenos_Aires"`, uses it for `createdAt`, sets `expireAt` to that
same instant plus `7 * 12` days, sets `suscriptionType = "free-trial"`,
`cost = 0`, `expired = false`, and persists the record in collection
`"Suscriptions"` keyed by the id of the event profile (assuming no document
already occupies that key, in which case the store create reports an
error as section 4.3 allows). -/
theorem C4_HandleUserCreate_provisions (now : String → Int) (e : FirestoreEvent)
    (st : HState) (h : st.store.existsDoc "Suscriptions" e.Value.Fields.ID = false) :
    HandleUserCreate now e st =
      { resp := st.resp.writeHeader 201,
        store := { docs := st.store.docs ++
          [{ coll := "Suscriptions", id := e.Value.Fields.ID,
             data := .suscription
               { expired := false, suscriptionType := "free-trial", cost := 0,
                 expireAt := now "America/Buenos_Aires" + 7 * 12 * 86400,
                 createdAt := now "America/Buenos_Aires" } }] } } := by
  simp [HandleUserCreate, Store.create, h]

/-- Witness for C4 at a concrete clock, event and state. -/
theorem C4_witness :
    Store.existsDoc { docs := [] } "Suscriptions" e1.Value.Fields.ID = false ∧
    HandleUserCreate now1 e1 stEmpty =
      { resp := Response.empty.writeHeader 201,
        store := { docs :=
          [{ coll := "Suscriptions", id := e1.Value.Fields.ID,
             data := .suscription
               { expired := false, suscriptionType := "free-trial", cost := 0,
                 expireAt := now1 "America/Buenos_Aires" + 7 * 12 * 86400,
                 createdAt := now1 "America/Buenos_Aires" } }] } } :=
  ⟨rfl, C4_HandleUserCreate_provisions now1 e1 stEmpty rfl⟩

/-- C10: when the body read itself fails (as opposed to a JSON decode
failure), both create handlers panic with nothing written, while the update
and delete handlers of both resources write status 400. -/
theorem C10_read_failure_create_panics_others_400 (r : Request) (st : HState)
    (h : r.body = .readFailed) :
    setUsers r st = .panicked st ∧
    setSuscriptions r st = .panicked st ∧
    deleteUsers r st = { st with resp := st.resp.writeHeader 400 } ∧
    updateUsers r st = { st with resp := st.resp.writeHeader 400 } ∧
    deleteSuscriptions r st = { st with resp := st.resp.writeHeader 400 } ∧
    updateSuscriptions r st = { st with resp := st.resp.writeHeader 400 } := by
  simp [setUsers, setSuscriptions, deleteUsers, updateUsers,
    deleteSuscriptions, updateSuscriptions, h]

/-- A request whose body read fails. -/
def reqReadFailed : Request :=
  { method := .POST, uid := "", authValid := true, clientOk := true,
    body := .readFailed }

/-- Witness for C10 at a concrete request and state. -/
theorem C10_witness :
    reqReadFailed.body = .readFailed ∧
    (setUsers reqReadFailed stEmpty = .panicked stEmpty ∧
     setSuscriptions reqReadFailed stEmpty = .panicked stEmpty ∧
     deleteUsers reqReadFailed stEmpty = { stEmpty with resp := stEmpty.resp.writeHeader 400 } ∧
     updateUsers reqReadFailed stEmpty = { stEmpty with resp := stEmpty.resp.writeHeader 400 } ∧
     deleteSuscriptions reqReadFailed stEmpty = { stEmpty with resp := stEmpty.resp.writeHeader 400 } ∧
     updateSuscriptions reqReadFailed stEmpty = { stEmpty with resp := stEmpty.resp.writeHeader 400 }) :=
  ⟨rfl, C10_read_failure_create_panics_others_400 reqReadFailed stEmpty rfl⟩

/-! ## Handler preservation lemmas (an already-written response is final) -/

theorem Response.writeHeader_isSome (r : Response) (c : Nat)
    (h : r.status.isSome = true) : r.writeHeader c = r := by
  unfold Response.writeHeader; simp [h]

theorem setUsers_resp_preserved (r : Request) (st : HState)
    (hs : st.resp.status.isSome = true) : (setUsers r st).state.resp = st.resp := by
  unfold setUsers
  cases r.body with
  | readFailed => rfl
  | content u d =>
    cases u with
    | none => simp [HResult.state, Response.writeHeader_isSome, hs]
    | some f =>
      cases hcr : st.store.create "Users" f.ID (.user f) <;>
        simp [HResult.state, Response.writeHeader_isSome, hs, hcr]

theorem setSuscriptions_resp_preserved (r : Request) (st : HState)
    (hs : st.resp.status.isSome = true) : (setSuscriptions r st).state.resp = st.resp := by
  unfold setSuscriptions
  cases r.body with
  | readFailed => rfl
  | content u d =>
    cases u with
    | none => simp [HResult.state, Response.writeHeader_isSome, hs]
    | some f =>
      cases hcr : st.store.create "Suscriptions" f.ID (.user f) <;>
        simp [HResult.state, Response.writeHeader_isSome, hs, hcr]

theorem deleteUsers_resp_preserved (r : Request) (st : HState)
    (hs : st.resp.status.isSome = true) : (deleteUsers r st).resp = st.resp := by
  unfold deleteUsers
  cases r.body with
  | readFailed => simp [Response.writeHeader_isSome, hs]
  | content u d =>
    cases d <;> simp [Response.writeHeader_isSome, hs]

theorem updateUsers_resp_preserved (r : Request) (st : HState)
    (hs : st.resp.status.isSome = true) : (updateUsers r st).resp = st.resp := by
  unfold updateUsers
  cases r.body with
  | readFailed => simp [Response.writeHeader_isSome, hs]
  | content u d =>
    cases u <;> simp [Response.writeHeader_isSome, hs]

theorem deleteSuscriptions_resp_preserved (r : Request) (st : HState)
    (hs : st.resp.status.isSome = true) : (deleteSuscriptions r st).resp = st.resp := by
  unfold deleteSuscriptions
  cases r.body with
  | readFailed => simp [Response.writeHeader_isSome, hs]
  | content u d =>
    cases d <;> simp [Response.writeHeader_isSome, hs]

theorem updateSuscriptions_resp_preserved (r : Request) (st : HState)
    (hs : st.resp.status.isSome = true) : (updateSuscriptions r st).resp = st.resp := by
  unfold updateSuscriptions
  cases r.body with
  | readFailed => simp [Response.writeHeader_isSome, hs]
  | content u d =>
    cases u <;> simp [Response.writeHeader_isSome, hs]

/-- C7: on every mutating request whose token verification fails (on either
endpoint), the response carries status 403 and its body is exactly the
forbidden JSON object, written before anything else — the mutation handler
running afterwards can no longer change the status or add body bytes. -/
theorem C7_verifier_failure_403_first
    (path : String) (h : Request → Store → HResult) (r : Request) (store : Store)
    (hp : route path = some h) (hc : r.clientOk = true) (ha : r.authValid = false)
    (hmut : r.method = .POST ∨ r.method = .PUT ∨ r.method = .DELETE) :
    (h r store).state.resp.status = some 403 ∧
    (h r store).state.resp.body = [.jsonObj forbiddenBody] := by
  have hAs : (authorizeRequest r (Response.empty.setHeader "Access-Control-Allow-Origin" "*")).status = some 403 := by
    simp [authorizeRequest, ha]
  have hAb : (authorizeRequest r (Response.empty.setHeader "Access-Control-Allow-Origin" "*")).body = [.jsonObj forbiddenBody] := by
    simp [authorizeRequest, ha]
  have hAsome : (authorizeRequest r (Response.empty.setHeader "Access-Control-Allow-Origin" "*")).status.isSome = true := by
    rw [hAs]; rfl
  rcases route_handlers hp with rfl | rfl <;> rcases hmut with hm | hm | hm
  · have hres : UsersAPI r store =
        setUsers r { resp := authorizeRequest r (Response.empty.setHeader "Access-Control-Allow-Origin" "*"), store := store } := by
      simp [UsersAPI, hm, hc]
    rw [hres, setUsers_resp_preserved r _ hAsome]
    exact ⟨hAs, hAb⟩
  · have hres : UsersAPI r store =
        .done (updateUsers r { resp := authorizeRequest r (Response.empty.setHeader "Access-Control-Allow-Origin" "*"), store := store }) := by
      simp [UsersAPI, hm, hc]
    rw [hres]
    simp only [HResult.state]
    rw [updateUsers_resp_preserved r _ hAsome]
    exact ⟨hAs, hAb⟩
  · have hres : UsersAPI r store =
        .done (deleteUsers r { resp := authorizeRequest r (Response.empty.setHeader "Access-Control-Allow-Origin" "*"), store := store }) := by
      simp [UsersAPI, hm, hc]
    rw [hres]
    simp only [HResult.state]
    rw [deleteUsers_resp_preserved r _ hAsome]
    exact ⟨hAs, hAb⟩
  · have hres : SuscriptionsAPI r store =
        setSuscriptions r { resp := authorizeRequest r (Response.empty.setHeader "Access-Control-Allow-Origin" "*"), store := store } := by
      simp [SuscriptionsAPI, hm, hc]
    rw [hres, setSuscriptions_resp_preserved r _ hAsome]
    exact ⟨hAs, hAb⟩
  · have hres : SuscriptionsAPI r store =
        .done (updateSuscriptions r { resp := authorizeRequest r (Response.empty.setHeader "Access-Control-Allow-Origin" "*"), store := store }) := by
      simp [SuscriptionsAPI, hm, hc]
    rw [hres]
    simp only [HResult.state]
    rw [updateSuscriptions_resp_preserved r _ hAsome]
    exact ⟨hAs, hAb⟩
  · have hres : SuscriptionsAPI r store =
        .done (deleteSuscriptions r { resp := authorizeRequest r (Response.empty.setHeader "Access-Control-Allow-Origin" "*"), store := store }) := by
      simp [SuscriptionsAPI, hm, hc]
    rw [hres]
    simp only [HResult.state]
    rw [deleteSuscriptions_resp_preserved r _ hAsome]
    exact ⟨hAs, hAb⟩

/-- Witness for C7: a concrete PUT to `/users` with an invalid token. -/
def reqPutBadToken : Request :=
  { method := .PUT, uid := "", authValid := false, clientOk := true,
    body := .content (some f1) none }

/-- Witness for C7 at a concrete request. -/
theorem C7_witness :
    route "/users" = some UsersAPI ∧ reqPutBadToken.clientOk = true ∧
    reqPutBadToken.authValid = false ∧ reqPutBadToken.method = .PUT ∧
    ((UsersAPI reqPutBadToken { docs := [] }).state.resp.status = some 403 ∧
     (UsersAPI reqPutBadToken { docs := [] }).state.resp.body = [.jsonObj forbiddenBody]) :=
  ⟨rfl, rfl, rfl, rfl,
    C7_verifier_failure_403_first "/users" UsersAPI reqPutBadToken { docs := [] }
      rfl rfl rfl (Or.inr (Or.inl rfl))⟩

/-- A POST whose body is malformed JSON, sent with an invalid bearer token. -/
def reqPostMalformedBadToken : Request :=
  { method := .POST, uid := "", authValid := false, clientOk := true,
    body := .content none none }

/-- C5 counterexample: the claim promises status 400 for every mutating
request with a malformed body, but when the bearer token is also invalid the
verifier writes 403 first and the later 400 status write is suppressed
(Go ignores the superfluous `WriteHeader`), so the response status is 403,
not 400.  No mutation occurs either way. -/
theorem C5_counterexample_bad_token_suppresses_400 :
    (UsersAPI reqPostMalformedBadToken { docs := [] }).state.resp.status = some 403 ∧
    ¬ (UsersAPI reqPostMalformedBadToken { docs := [] }).state.resp.status = some 400 ∧
    (UsersAPI reqPostMalformedBadToken { docs := [] }).state.store = { docs := [] } := by
  refine ⟨rfl, ?_, rfl⟩
  decide

/-- C5 (amended): for every POST, PUT or DELETE request whose bearer token
verifies and whose body is not well-formed JSON for the field set that
request decodes (`UsersFieldsType` for POST/PUT, `DeleteType` for DELETE),
the response status is 400 and the store is unchanged. -/
theorem C5_amended_malformed_400_when_authorized
    (path : String) (h : Request → Store → HResult) (r : Request) (store : Store)
    (hp : route path = some h) (hc : r.clientOk = true) (ha : r.authValid = true)
    (hb : (r.method = .DELETE ∧ ∃ u, r.body = .content u none) ∨
          ((r.method = .POST ∨ r.method = .PUT) ∧ ∃ d, r.body = .content none d)) :
    (h r store).state.resp.status = some 400 ∧ (h r store).state.store = store := by
  have hAuth : ∀ resp : Response, authorizeRequest r resp = resp := by
    intro resp; simp [authorizeRequest, ha]
  rcases route_handlers hp with rfl | rfl <;>
    rcases hb with ⟨hm, u, hbody⟩ | ⟨hm | hm, dd, hbody⟩ <;>
      simp [UsersAPI, SuscriptionsAPI, hm, hc, hAuth, hbody, setUsers, updateUsers,
        deleteUsers, setSuscriptions, updateSuscriptions, deleteSuscriptions,
        HResult.state]

/-- A DELETE with a valid token whose body fails the `DeleteType` decode. -/
def reqDeleteMalformed : Request :=
  { method := .DELETE, uid := "", authValid := true, clientOk := true,
    body := .content (some f1) none }

/-- Witness for the amended C5 at a concrete request. -/
theorem C5_witness :
    route "/users" = some UsersAPI ∧ reqDeleteMalformed.clientOk = true ∧
    reqDeleteMalformed.authValid = true ∧
    reqDeleteMalformed.method = .DELETE ∧ reqDeleteMalformed.body = .content (some f1) none ∧
    ((UsersAPI reqDeleteMalformed { docs := [] }).state.resp.status = some 400 ∧
     (UsersAPI reqDeleteMalformed { docs := [] }).state.store = { docs := [] }) :=
  ⟨rfl, rfl, rfl, rfl, rfl,
    C5_amended_malformed_400_when_authorized "/users" UsersAPI reqDeleteMalformed
      { docs := [] } rfl rfl rfl (Or.inl ⟨rfl, some f1, rfl⟩)⟩

/-- C6: every GET (on either endpoint) leaves the store unchanged and,
depending on the `"user"`-collection query on the `uid` parameter, answers
404 with exactly the not-found JSON body on zero matches, or 200 with the
first match encoded as the body on one or more matches. -/
theorem C6_get_by_uid
    (path : String) (h : Request → Store → HResult) (r : Request) (store : Store)
    (hp : route path = some h) (hc : r.clientOk = true) (hm : r.method = .GET) :
    (h r store).state.store = store ∧
    (store.query "user" r.uid = [] →
      (h r store).state.resp.status = some 404 ∧
      (h r store).state.resp.body = [.jsonObj notFoundBody]) ∧
    (∀ m ms, store.query "user" r.uid = m :: ms →
      (h r store).state.resp.status = some 200 ∧
      (h r store).state.resp.body = [.record m]) := by
  rcases route_handlers hp with rfl | rfl <;>
    cases hq : store.query "user" r.uid <;>
      simp [UsersAPI, SuscriptionsAPI, hm, hc, getUsers, getSuscriptions, hq,
        HResult.state]

/-- A store whose `"user"` collection holds one document matching `uid=u1`. -/
def storeUser1 : Store :=
  { docs := [{ coll := "user", id := "u1", data := .user f1 }] }

/-- Witness for C6 at a concrete GET over a one-match store. -/
theorem C6_witness :
    route "/users" = some UsersAPI ∧ reqGetU1.clientOk = true ∧ reqGetU1.method = .GET ∧
    ((UsersAPI reqGetU1 storeUser1).state.store = storeUser1 ∧
     (storeUser1.query "user" reqGetU1.uid = [] →
       (UsersAPI reqGetU1 storeUser1).state.resp.status = some 404 ∧
       (UsersAPI reqGetU1 storeUser1).state.resp.body = [.jsonObj notFoundBody]) ∧
     (∀ m ms, storeUser1.query "user" reqGetU1.uid = m :: ms →
       (UsersAPI reqGetU1 storeUser1).state.resp.status = some 200 ∧
       (UsersAPI reqGetU1 storeUser1).state.resp.body = [.record m])) :=
  ⟨rfl, rfl, rfl, C6_get_by_uid "/users" UsersAPI reqGetU1 storeUser1 rfl rfl rfl⟩

/-- The full preflight response: status 204, the four CORS headers in the
order the dispatcher sets them, empty body. -/
def corsPreflightResp : Response :=
  { status := some 204,
    headers := [("Access-Control-Allow-Origin", "*"), ("Access-Control-Allow-Methods", "*"), ("Access-Control-Allow-Headers", "Content-Type"), ("Access-Control-Max-Age", "3600")],
    body := [] }

/-- C8: an OPTIONS request on either endpoint is answered with status 204,
an empty body, exactly the four CORS headers, the store unchanged and the
response independent of the store (no document access). -/
theorem C8_options_preflight
    (path : String) (h : Request → Store → HResult) (r : Request) (store : Store)
    (hp : route path = some h) (hc : r.clientOk = true) (hm : r.method = .OPTIONS) :
    h r store = .done { resp := corsPreflightResp, store := store } := by
  rcases route_handlers hp with rfl | rfl <;>
    simp +decide [UsersAPI, SuscriptionsAPI, hm, hc, Response.setHeader,
      Response.writeHeader, Response.empty, corsPreflightResp]

/-- A concrete OPTIONS request. -/
def reqOpt : Request :=
  { method := .OPTIONS, uid := "", authValid := false, clientOk := true,
    body := .content none none }

/-- Witness for C8 at a concrete OPTIONS request. -/
theorem C8_witness :
    route "/suscriptions" = some SuscriptionsAPI ∧ reqOpt.clientOk = true ∧
    reqOpt.method = .OPTIONS ∧
    SuscriptionsAPI reqOpt { docs := [] } = .done { resp := corsPreflightResp, store := { docs := [] } } :=
  ⟨rfl, rfl, rfl,
    C8_options_preflight "/suscriptions" SuscriptionsAPI reqOpt { docs := [] } rfl rfl rfl⟩

/-- C9: the GET handler of `/suscriptions` is extensionally identical to the
GET handler of `/users` — same uid query parameter and store give the very
same result — and the response depends only on the `"user"` collection,
never on `"Suscriptions"`: restricting the store to its `"user"` documents
leaves the response unchanged. -/
theorem C9_get_handlers_identical :
    (∀ (r : Request) (st : HState), getSuscriptions r st = getUsers r st) ∧
    (∀ (r : Request) (resp : Response) (store : Store),
      (getUsers r { resp := resp, store := { docs := store.docs.filter fun d => d.coll == "user" } }).resp =
        (getUsers r { resp := resp, store := store }).resp) := by
  constructor
  · intro r st
    cases hq : st.store.query "user" r.uid <;>
      simp [getUsers, getSuscriptions, hq]
  · intro r resp store
    have hq : Store.query { docs := store.docs.filter fun d => d.coll == "user" } "user" r.uid =
        store.query "user" r.uid := by
      obtain ⟨docs⟩ := store
      simp only [Store.query]
      congr 1
      induction docs with
      | nil => rfl
      | cons d ds ih =>
        cases hcoll : d.coll == "user" <;>
          simp [List.filter_cons, hcoll, ih]
    cases hqq : store.query "user" r.uid <;>
      simp [getUsers, hq, hqq]

/-- C2: for every successful profile creation (POST `/users` with a body
decoding to fields `f`, against a store where neither collection already
holds a document keyed `f.ID`), the spec-modelled trigger
(`userCreateTrigger`) makes the companion subscription document exist under
the same id with `expired = false`, `suscriptionType = "free-trial"`,
`cost = 0` and `expireAt = createdAt + 84 days` (`7 * 12` days of `86400`
seconds each). -/
theorem C2_profile_creation_provisions_companion
    (now : String → Int) (r : Request) (f : UsersFieldsType) (d : Option DeleteType)
    (store : Store)
    (hm : r.method = .POST) (hc : r.clientOk = true) (hb : r.body = .content (some f) d)
    (hU : store.existsDoc "Users" f.ID = false)
    (hS : store.existsDoc "Suscriptions" f.ID = false) :
    ∃ st, UsersAPI r store = .done st ∧
      st.store.docs = store.docs ++ [{ coll := "Users", id := f.ID, data := .user f }] ∧
      userCreateTrigger now f st.store =
        { docs := st.store.docs ++
            [{ coll := "Suscriptions", id := f.ID,
               data := .suscription
                 { expired := false, suscriptionType := "free-trial", cost := 0,
                   expireAt := now "America/Buenos_Aires" + 7 * 12 * 86400,
                   createdAt := now "America/Buenos_Aires" } }] } ∧
      (7 : Int) * 12 * 86400 = 84 * 86400 := by
  have hcreate : store.create "Users" f.ID (.user f) =
      .ok { docs := store.docs ++ [{ coll := "Users", id := f.ID, data := .user f }] } := by
    simp [Store.create, hU]
  have hS2 : Store.existsDoc
      { docs := store.docs ++ [{ coll := "Users", id := f.ID, data := .user f }] }
      "Suscriptions" f.ID = false := by
    simp only [Store.existsDoc, List.any_append] at hS ⊢
    simp +decide [hS]
  refine ⟨{ resp := (authorizeRequest r (Response.empty.setHeader "Access-Control-Allow-Origin" "*")).writeHeader 201, store := { docs := store.docs ++ [{ coll := "Users", id := f.ID, data := .user f }] } }, ?_, rfl, ?_, by norm_num⟩
  · simp [UsersAPI, hm, hc, setUsers, hb, hcreate]
  · simp [userCreateTrigger, HandleUserCreate, Store.create, hS2]

/-- Witness for C2: a concrete POST with body `f1` on the empty store,
followed by the spec-modelled trigger. -/
theorem C2_witness :
    reqPostValid.method = .POST ∧ reqPostValid.clientOk = true ∧
    reqPostValid.body = .content (some f1) none ∧
    Store.existsDoc { docs := [] } "Users" f1.ID = false ∧
    Store.existsDoc { docs := [] } "Suscriptions" f1.ID = false ∧
    (∃ st, UsersAPI reqPostValid { docs := [] } = .done st ∧
      st.store.docs = [{ coll := "Users", id := f1.ID, data := .user f1 }] ∧
      userCreateTrigger now1 f1 st.store =
        { docs := st.store.docs ++
            [{ coll := "Suscriptions", id := f1.ID,
               data := .suscription
                 { expired := false, suscriptionType := "free-trial", cost := 0,
                   expireAt := now1 "America/Buenos_Aires" + 7 * 12 * 86400,
                   createdAt := now1 "America/Buenos_Aires" } }] } ∧
      (7 : Int) * 12 * 86400 = 84 * 86400) :=
  ⟨rfl, rfl, rfl, rfl, rfl,
    C2_profile_creation_provisions_companion now1 reqPostValid f1 none { docs := [] }
      rfl rfl rfl rfl rfl⟩
